import Mathlib

/-!
Verification development for the Shopify image-management tool.

The definitions below are a shallow embedding of the server code:
`matchSkuToFilename`, the ZIP preview and batch-execution routes, and the
asynchronous batch processor from `server/routes.ts`, together with the
relevant methods of `server/services/shopify.ts`.  External collaborators
(the Shopify GraphQL API, the record store, the `sharp` image library) are
modelled as explicit environment parameters; everything the repository's own
code computes is translated directly from the source.
-/

namespace Spec2Proof

/-! ## String primitives mirroring the JavaScript operations used by the code -/

/-- The whitespace characters recognised by JavaScript `trim` and by the
`\s` class of a regex literal (ASCII part: space, tab, LF, VT, FF, CR). -/
def isJsWhitespace (c : Char) : Bool :=
  c == ' ' || c == '\t' || c == '\n' || c == Char.ofNat 11 || c == Char.ofNat 12 || c == '\r'

/-- `String.prototype.toLowerCase`, character by character (ASCII-faithful). -/
def jsToLower (l : List Char) : List Char :=
  l.map Char.toLower

/-- `String.prototype.trim`: drop leading and trailing whitespace. -/
def jsTrim (l : List Char) : List Char :=
  ((l.dropWhile isJsWhitespace).reverse.dropWhile isJsWhitespace).reverse

/-- `s.toLowerCase().trim()` as used at the top of `matchSkuToFilename`. -/
def jsCleanLower (s : String) : List Char :=
  jsTrim (jsToLower s.data)

/-- The separator class `[-_\s]` of the regex literal `/[-_\s]/g`
(`routes.ts` lines 910 to 911): hyphen, underscore, or whitespace. -/
def isSeparatorChar (c : Char) : Bool :=
  c == '-' || c == '_' || isJsWhitespace c

/-- `replace(/[-_\s]/g, '')`: remove every separator character. -/
def stripSeparators (l : List Char) : List Char :=
  l.filter (fun c => !isSeparatorChar c)

/-- `String.prototype.startsWith`: `listStartsWith l pat` is true when
`pat` is an initial segment of `l`. -/
def listStartsWith : List Char → List Char → Bool
  | _, [] => true
  | [], _ :: _ => false
  | c :: cs, p :: ps => c == p && listStartsWith cs ps

/-- `String.prototype.endsWith`, via `listStartsWith` on the reversals. -/
def listEndsWith (l pat : List Char) : Bool :=
  listStartsWith l.reverse pat.reverse

/-- The delimiter class of the word-boundary regex built in
`matchSkuToFilename` (`routes.ts` line 925).  The source builds it from the
template literal `` `(^|[-_\s])...([-_\s]|$)` ``; inside a JavaScript
template literal the escape `\s` denotes the plain letter `s`, so the class
that actually reaches `new RegExp` is `[-_s]`: hyphen, underscore, or the
letter `s` — not whitespace. -/
def regexDelim (c : Char) : Bool :=
  c == '-' || c == '_' || c == 's'

/-- The part `([-_s]|$)` of the word-boundary regex: the rest of the input
is empty or begins with a delimiter. -/
def boundaryAfter : List Char → Bool
  | [] => true
  | c :: _ => regexDelim c

/-- The word-boundary regex matches at the current position: the input
starts with `sku` and is followed by `([-_s]|$)`. -/
def matchAt (sku file : List Char) : Bool :=
  listStartsWith file sku && boundaryAfter (file.drop sku.length)

/-- Scan for a match of `[-_s]` followed by `sku` followed by `([-_s]|$)`
anywhere in the input (the `[-_s]` alternative of `(^|[-_s])`). -/
def regexScan (sku : List Char) : List Char → Bool
  | [] => false
  | c :: rest => (regexDelim c && matchAt sku rest) || regexScan sku rest

/-- `regex.test(fileClean)` for the regex
`(^|[-_s])<escaped sku>([-_s]|$)` with the `i` flag: either the match is
anchored at the start (`^` alternative) or some delimiter character
precedes it.  Both arguments are already lower-cased by the caller, so the
`i` flag adds nothing. -/
def wordBoundaryMatch (sku file : List Char) : Bool :=
  matchAt sku file || regexScan sku file

/-- `matchSkuToFilename` (`routes.ts` lines 897 to 936): the unified SKU
matcher used by both the ZIP preview route and the batch-execution ZIP
branch.  Tries, in order: exact match, separator-stripped normalized
match, starts-with, word-boundary regex. -/
def matchSkuToFilename (sku fileBaseName : String) : Bool :=
  let skuClean := jsCleanLower sku
  let fileClean := jsCleanLower fileBaseName
  if fileClean == skuClean then true
  else if stripSeparators fileClean == stripSeparators skuClean then true
  else if listStartsWith fileClean skuClean then true
  else wordBoundaryMatch skuClean fileClean

/-- `String.prototype.split(sep)` on a character separator, with an
accumulator for the current segment. -/
def splitOnCharAux (sep : Char) : List Char → List Char → List (List Char)
  | [], acc => [acc.reverse]
  | c :: rest, acc =>
      if c == sep then acc.reverse :: splitOnCharAux sep rest []
      else splitOnCharAux sep rest (c :: acc)

/-- `String.prototype.split(sep)`. -/
def splitOnChar (sep : Char) (l : List Char) : List (List Char) :=
  splitOnCharAux sep l []

/-- `filename.split('/').pop()?.split('.')[0] || ''` (`routes.ts` lines 754
and 845): the entry name without its directory path and without everything
from the first dot on. -/
def fileBaseNameOf (filename : String) : String :=
  match (splitOnChar '/' filename.data).getLast? with
  | none => ""
  | some seg =>
      match splitOnChar '.' seg with
      | [] => ""
      | first :: _ => String.mk first

/-- The image-entry filter `/\.(jpg|jpeg|png|webp)$/i.test(filename)` used
by both ZIP routes. -/
def isImageFilename (filename : String) : Bool :=
  let low := jsToLower filename.data
  listEndsWith low ".jpg".data || listEndsWith low ".jpeg".data ||
  listEndsWith low ".png".data || listEndsWith low ".webp".data

/-! ## ZIP archive entries: preview route and batch-execution branch

Both routes iterate over `Object.entries(zipContent.files)` — modelled as a
list of entries in iteration order — keep the entries that are not
directories and pass the image-extension test, derive the basename, and
call `matchSkuToFilename` against the submitted SKU list with
`Array.prototype.find`. -/

/-- One entry of the loaded ZIP archive, with its raw bytes. -/
structure ZipEntry where
  filename : String
  isDir : Bool
  content : List Nat
deriving DecidableEq, Repr

/-- The batch-execution ZIP branch (`routes.ts` lines 751 to 771): build the
`imageFiles` object, assigning each matched entry's buffer to the first SKU
in list order that matches its basename (`imageFiles[matchingSku] = buffer`,
later entries overwriting earlier ones). -/
def zipExecImageFiles (skus : List String) (entries : List ZipEntry) :
    String → Option (List Nat) :=
  entries.foldl
    (fun m e =>
      if !e.isDir && isImageFilename e.filename then
        match skus.find? (fun sku => matchSkuToFilename sku (fileBaseNameOf e.filename)) with
        | some matchingSku => fun s => if s == matchingSku then some e.content else m s
        | none => m
      else m)
    (fun _ => none)

/-- One record of the ZIP preview response (`routes.ts` lines 855 to 862). -/
structure PreviewFile where
  filename : String
  basename : String
  matchingSku : Option String
  /-- The source calls this field `matches` (`matches: !!matchingSku`);
  that word is reserved in Lean. -/
  matched : Bool
deriving DecidableEq, Repr

/-- The ZIP preview route (`routes.ts` lines 841 to 864): per-entry
classification.  The preview guards the `find` with `skus.length > 0`,
returning `null` for an empty SKU list. -/
def zipPreviewFiles (skus : List String) (entries : List ZipEntry) : List PreviewFile :=
  entries.filterMap (fun e =>
    if !e.isDir && isImageFilename e.filename then
      let base := fileBaseNameOf e.filename
      let m :=
        if skus.length > 0 then
          skus.find? (fun sku => matchSkuToFilename sku base)
        else none
      some { filename := e.filename, basename := base, matchingSku := m, matched := m.isSome }
    else none)

/-- The SKUs that the preview classifies as matched (the `matchingSku`
fields of the matched files). -/
def previewMatchedSkus (skus : List String) (entries : List ZipEntry) : List String :=
  (zipPreviewFiles skus entries).filterMap PreviewFile.matchingSku

/-! ## The asynchronous batch processor `processBatchOperations`

`routes.ts` lines 939 to 1160.  The external collaborators are an
environment: the outcome of `searchProductBySku` per SKU, whether the
`imageFiles` object holds a buffer for the SKU, and whether the staged
upload / file creation / replace-or-add sequence succeeds.  The record
store (`storage`) is the state being built: the list of ProductOperation
records and the BatchOperation record, together with the trace of every
`updateBatchOperation` write. -/

/-- ProductOperation status values. -/
inductive OpStatus
  | pending
  | success
  | error
deriving DecidableEq, Repr

/-- BatchOperation status values. -/
inductive BatchStatus
  | pending
  | processing
  | completed
  | error
deriving DecidableEq, Repr

/-- A persisted ProductOperation record (the fields the claims speak
about). -/
structure ProdOp where
  sku : String
  status : OpStatus
  errorMessage : Option String
deriving DecidableEq, Repr

/-- The persisted BatchOperation record.  The source stores the counters as
decimal strings (`(completed + failed).toString()`); they are modelled by
their numeric values. -/
structure BatchRec where
  status : BatchStatus
  totalItems : Nat
  completedItems : Nat
  failedItems : Nat
deriving DecidableEq, Repr

/-- Outcome of `shopify.searchProductBySku(sku)` inside the loop. -/
inductive LookupRes
  | notFound
  | found
  | exn
deriving DecidableEq, Repr

/-- Outcome of the whole inner upload sequence (staged upload, transfer,
`createFileFromStaged`, replace or add). -/
inductive UploadRes
  | ok
  | exn
deriving DecidableEq, Repr

/-- The external world as seen by one run of `processBatchOperations`.
`initOk = false` models the initial `status = 'processing'` update
rejecting, which sends control to the outer catch. -/
structure BatchEnv where
  initOk : Bool
  lookup : String → LookupRes
  hasImage : String → Bool
  upload : String → UploadRes

/-- The record store state threaded through a run: the ProductOperation
records created so far, the current BatchOperation record, and the
snapshots taken after every `updateBatchOperation` call. -/
structure RunState where
  ops : List ProdOp
  batch : BatchRec
  writes : List BatchRec
deriving Repr

/-- `storage.updateBatchOperation`: apply a partial update to the batch
record and append the resulting snapshot to the write trace. -/
def updateBatch (s : RunState) (f : BatchRec → BatchRec) : RunState :=
  let b := f s.batch
  { s with batch := b, writes := s.writes ++ [b] }

/-- `storage.createProductOperation`: append a record. -/
def createOp (s : RunState) (op : ProdOp) : RunState :=
  { s with ops := s.ops ++ [op] }

/-- Replace the status and error message of the record at index `i`. -/
def modifyOpStatus : List ProdOp → Nat → OpStatus → Option String → List ProdOp
  | [], _, _, _ => []
  | op :: rest, 0, status, msg => { op with status := status, errorMessage := msg } :: rest
  | op :: rest, n + 1, status, msg => op :: modifyOpStatus rest n status msg

/-- `storage.updateProductOperation` on the record at index `i` (records
are keyed by id; the index in creation order plays the role of the id). -/
def updateOpAt (s : RunState) (i : Nat) (status : OpStatus) (msg : Option String) :
    RunState :=
  { s with ops := modifyOpStatus s.ops i status msg }

/-- One iteration of the `for (const sku of skus)` loop, returning the new
store state and the updated `completed` and `failed` counters.  Mirrors
the control flow of `routes.ts` lines 960 to 1137: lookup failure and
missing image record an error and continue; a successful upload updates
the pending record to success; a failed upload updates the pending record
to error, rethrows, and the outer catch creates a second error record. -/
def stepSku (env : BatchEnv) (s : RunState) (completed failed : Nat) (sku : String) :
    RunState × Nat × Nat :=
  match env.lookup sku with
  | LookupRes.exn =>
      (createOp s { sku := sku, status := OpStatus.error, errorMessage := some "lookup failed" },
       completed, failed + 1)
  | LookupRes.notFound =>
      (createOp s { sku := sku, status := OpStatus.error, errorMessage := some "Product not found" },
       completed, failed + 1)
  | LookupRes.found =>
      if env.hasImage sku then
        let pendingId := s.ops.length
        let s1 := createOp s { sku := sku, status := OpStatus.pending, errorMessage := none }
        match env.upload sku with
        | UploadRes.ok =>
            (updateOpAt s1 pendingId OpStatus.success none, completed + 1, failed)
        | UploadRes.exn =>
            let s2 := updateOpAt s1 pendingId OpStatus.error (some "shopify error")
            (createOp s2 { sku := sku, status := OpStatus.error, errorMessage := some "shopify error" },
             completed, failed + 1)
      else
        (createOp s { sku := sku, status := OpStatus.error, errorMessage := some "No image provided" },
         completed, failed + 1)

/-- The loop body plus the per-iteration progress write
(`routes.ts` lines 1139 to 1144). -/
def runLoop (env : BatchEnv) : List String → RunState → Nat → Nat → RunState × Nat × Nat
  | [], s, completed, failed => (s, completed, failed)
  | sku :: rest, s, completed, failed =>
      let r := stepSku env s completed failed sku
      let s1 := updateBatch r.1 (fun b =>
        { b with completedItems := r.2.1 + r.2.2, failedItems := r.2.2 })
      runLoop env rest s1 r.2.1 r.2.2

/-- The BatchOperation record as created by the submission route
(`storage.createBatchOperation` with the schema defaults:
counters `'0'`, status `'pending'`). -/
def initialBatch (skus : List String) : BatchRec :=
  { status := BatchStatus.pending, totalItems := skus.length,
    completedItems := 0, failedItems := 0 }

/-- `processBatchOperations` (`routes.ts` lines 939 to 1160): set status to
processing, run the loop, then write the final record
(`completed > 0 ? 'completed' : 'error'`).  If the initial update rejects,
the outer catch writes `status = 'error'`, `completedItems = '0'`,
`failedItems = skus.length`. -/
def processBatchOperations (env : BatchEnv) (skus : List String) : RunState :=
  let s0 : RunState := { ops := [], batch := initialBatch skus, writes := [] }
  if env.initOk then
    let s1 := updateBatch s0 (fun b => { b with status := BatchStatus.processing })
    let r := runLoop env skus s1 0 0
    updateBatch r.1 (fun b =>
      { b with
        status := if r.2.1 > 0 then BatchStatus.completed else BatchStatus.error,
        completedItems := r.2.1 + r.2.2,
        failedItems := r.2.2 })
  else
    updateBatch s0 (fun b =>
      { b with status := BatchStatus.error, completedItems := 0,
               failedItems := skus.length })

/-- A SKU whose whole iteration succeeds: product found, image present,
upload sequence succeeds. -/
def isSuccessSku (env : BatchEnv) (sku : String) : Bool :=
  env.lookup sku == LookupRes.found && env.hasImage sku && env.upload sku == UploadRes.ok

/-- Number of SKUs of the batch whose iteration succeeds. -/
def successCount (env : BatchEnv) (skus : List String) : Nat :=
  (skus.filter (isSuccessSku env)).length

/-! ## ShopifyService: replace and add protocols (`services/shopify.ts`)

The remote GraphQL calls are opaque collaborators; a run of
`replaceVariantImage` or `addImageToProduct` is modelled as the ordered
trace of remote calls it issues plus its result.  `deleteProductMedia` is
one call at this level (its legacy-id resolution happens inside it);
`updateProductVariantImage` is a logging stub that performs no remote call
(`shopify.ts` lines 331 to 337). -/

/-- A remote call issued by the replace and add protocols. -/
inductive RemoteCall
  | deleteMedia (productId imageId : String)
  | createMedia (productId source altText : String)
deriving DecidableEq, Repr

/-- Outcome of one opaque remote call: normal return or thrown error. -/
inductive CallRes
  | ok
  | exn
deriving DecidableEq, Repr

/-- The remote service as seen by one replace or add run. -/
structure ShopifyEnv where
  /-- Outcome of `deleteProductMedia` (its thrown errors are caught by the
  caller and only logged). -/
  deleteRes : CallRes
  /-- The boolean `deleteProductMedia` returns when it does not throw. -/
  deleteReturns : Bool
  /-- Outcome of `createProductMediaFromUrl`. -/
  createRes : CallRes

/-- The guard `existingImageId && existingImageId !== 'null' &&
existingImageId !== ''` (`shopify.ts` line 482). -/
def validImageId : Option String → Bool
  | none => false
  | some id => !(id == "") && !(id == "null")

/-- `replaceVariantImage` (`shopify.ts` lines 476 to 517): step 1 attempts
`deleteProductMedia` first when the existing id passes the guard, with the
whole attempt inside try/catch — a thrown deletion error is logged and
control continues; step 2 runs `createProductMediaFromUrl`, whose error
propagates; step 3 calls the `updateProductVariantImage` stub (no remote
call).  Returns the trace of remote calls and the result. -/
def replaceVariantImage (env : ShopifyEnv) (variantId productId newImageUrl altText : String)
    (existingImageId : Option String) : List RemoteCall × Except String String :=
  let deleteTrace : List RemoteCall :=
    match existingImageId with
    | some id =>
        if validImageId (some id) then [RemoteCall.deleteMedia productId id]
        else []
    | none => []
  match env.createRes with
  | CallRes.exn =>
      (deleteTrace ++ [RemoteCall.createMedia productId newImageUrl altText],
       Except.error "Product media creation error")
  | CallRes.ok =>
      (deleteTrace ++ [RemoteCall.createMedia productId newImageUrl altText],
       Except.ok "new-media-id")

/-- `addImageToProduct` (`shopify.ts` lines 339 to 343): delegates to
`createProductMediaFromUrl` and nothing else. -/
def addImageToProduct (env : ShopifyEnv) (productId imageUrl altText : String) :
    List RemoteCall × Except String String :=
  match env.createRes with
  | CallRes.exn =>
      ([RemoteCall.createMedia productId imageUrl altText],
       Except.error "Product media creation error")
  | CallRes.ok =>
      ([RemoteCall.createMedia productId imageUrl altText], Except.ok "new-media-id")

/-! ## ShopifyService: format conversion in `createProductMediaFromBuffer`

`shopify.ts` lines 672 to 713, the branch taken when a custom filename and
a target extension are supplied.  The `sharp` conversion is an opaque
collaborator returning either the converted bytes or a thrown error. -/

/-- The mime type assigned in the `switch (fileExtension)` of the successful
conversion path (`shopify.ts` lines 683 to 700); the `default` arm treats
any other extension as jpeg. -/
def targetMimeType (fileExtension : String) : String :=
  if fileExtension == "png" then "image/png"
  else if fileExtension == "webp" then "image/webp"
  else "image/jpeg"

/-- The mime type assigned by the fallback ternary when conversion throws
(`shopify.ts` line 706). -/
def fallbackMimeType (fileExtension : String) : String :=
  if fileExtension == "png" then "image/png"
  else if fileExtension == "webp" then "image/webp"
  else "image/jpeg"

/-- The `sharp` conversion collaborator: `some` converted bytes, or `none`
when the conversion throws. -/
structure ConvertEnv where
  convert : String → List Nat → Option (List Nat)

/-- The conversion block of `createProductMediaFromBuffer`: returns the
buffer that is passed on to the staged-upload steps and the mime type
reported for it.  On success the converted buffer and the switch's mime
type; on a conversion error the original buffer with the ternary's mime
type. -/
def prepareUploadBuffer (env : ConvertEnv) (imageBuffer : List Nat)
    (fileExtension : String) : List Nat × String :=
  match env.convert fileExtension imageBuffer with
  | some converted => (converted, targetMimeType fileExtension)
  | none => (imageBuffer, fallbackMimeType fileExtension)

/-! ## ShopifyService: `searchProductBySku` image substitution

`shopify.ts` lines 134 to 149 plus the existing-image computation of the
batch Replace path (`routes.ts` line 1071). -/

/-- A product image node as returned by the GraphQL query. -/
structure ShopImage where
  id : String
  url : String
deriving DecidableEq, Repr

/-- The parent product of a variant, with its first 10 images. -/
structure ShopProduct where
  id : String
  title : String
  handle : String
  images : List ShopImage
deriving DecidableEq, Repr

/-- A product variant node. -/
structure ProductVariant where
  id : String
  sku : String
  image : Option ShopImage
  product : ShopProduct
deriving DecidableEq, Repr

/-- `searchProductBySku` after the GraphQL round-trip (`shopify.ts` lines
135 to 149): take the first edge if any; if the variant has no image of
its own and the product has at least one image, substitute the product's
first image into the variant's image field. -/
def searchProductBySku (queryEdges : List ProductVariant) : Option ProductVariant :=
  match queryEdges with
  | [] => none
  | variant :: _ =>
      match variant.image, variant.product.images with
      | none, firstImage :: _ => some { variant with image := some firstImage }
      | _, _ => some variant

/-- `const existingImageId = productVariant.image?.id ||
(productVariant.product?.images?.edges?.[0]?.node?.id)`
(`routes.ts` line 1071).  The JavaScript `||` falls through when the
variant image id is the empty string. -/
def existingImageIdFor (pv : ProductVariant) : Option String :=
  match pv.image with
  | some img =>
      if img.id == "" then (pv.product.images.head?).map ShopImage.id
      else some img.id
  | none => (pv.product.images.head?).map ShopImage.id

/-! ## The batch submission route (`routes.ts` lines 661 to 726)

The route parses the SKU list, the operation type and the uploaded files,
requires an active store, and then immediately calls
`storage.createBatchOperation` with `totalItems = skus.length` — it
performs no validation of the list length. -/

/-- The active store configuration required by the route. -/
structure StoreConfig where
  id : String
  storeUrl : String
deriving DecidableEq, Repr

/-- The result of `POST /api/products/batch-operation` up to the creation
of the BatchOperation record: a 400 rejection when no store is active,
otherwise the created record (processing then starts asynchronously). -/
def batchOperationRoute (activeStore : Option StoreConfig) (skus : List String) :
    Except String BatchRec :=
  match activeStore with
  | none => Except.error "No active store configured"
  | some _ => Except.ok (initialBatch skus)

/-! ## Helper lemmas about the batch loop -/

/-- Number of SKUs of the batch whose iteration fails. -/
def failCount (env : BatchEnv) (skus : List String) : Nat :=
  (skus.filter (fun sku => !isSuccessSku env sku)).length

/-- The ProductOperation records one loop iteration leaves in the store for
its SKU: one error record on lookup failure or missing image, one success
record on a clean run, and two error records when the upload sequence
throws after the pending record was created (the pending record updated in
place, plus the record the outer catch creates). -/
def iterationOps (env : BatchEnv) (sku : String) : List ProdOp :=
  match env.lookup sku with
  | LookupRes.exn =>
      [{ sku := sku, status := OpStatus.error, errorMessage := some "lookup failed" }]
  | LookupRes.notFound =>
      [{ sku := sku, status := OpStatus.error, errorMessage := some "Product not found" }]
  | LookupRes.found =>
      if env.hasImage sku then
        match env.upload sku with
        | UploadRes.ok =>
            [{ sku := sku, status := OpStatus.success, errorMessage := none }]
        | UploadRes.exn =>
            [{ sku := sku, status := OpStatus.error, errorMessage := some "shopify error" },
             { sku := sku, status := OpStatus.error, errorMessage := some "shopify error" }]
      else
        [{ sku := sku, status := OpStatus.error, errorMessage := some "No image provided" }]

theorem modifyOpStatus_append (l : List ProdOp) (op : ProdOp) (status : OpStatus)
    (msg : Option String) :
    modifyOpStatus (l ++ [op]) l.length status msg
      = l ++ [{ op with status := status, errorMessage := msg }] := by
  induction l with
  | nil => rfl
  | cons hd tl ih => simpa [modifyOpStatus] using ih

theorem stepSku_ops (env : BatchEnv) (s : RunState) (c f : Nat) (sku : String) :
    (stepSku env s c f sku).1.ops = s.ops ++ iterationOps env sku := by
  unfold stepSku iterationOps
  cases env.lookup sku with
  | exn => simp [createOp]
  | notFound => simp [createOp]
  | found =>
      cases h : env.hasImage sku with
      | false => simp [createOp]
      | true =>
          cases env.upload sku with
          | ok => simp [createOp, updateOpAt, modifyOpStatus_append]
          | exn => simp [createOp, updateOpAt, modifyOpStatus_append]

theorem stepSku_batch (env : BatchEnv) (s : RunState) (c f : Nat) (sku : String) :
    (stepSku env s c f sku).1.batch = s.batch := by
  unfold stepSku
  cases env.lookup sku with
  | exn => rfl
  | notFound => rfl
  | found =>
      cases env.hasImage sku with
      | false => rfl
      | true => cases env.upload sku with
        | ok => rfl
        | exn => rfl

theorem stepSku_writes (env : BatchEnv) (s : RunState) (c f : Nat) (sku : String) :
    (stepSku env s c f sku).1.writes = s.writes := by
  unfold stepSku
  cases env.lookup sku with
  | exn => rfl
  | notFound => rfl
  | found =>
      cases env.hasImage sku with
      | false => rfl
      | true => cases env.upload sku with
        | ok => rfl
        | exn => rfl

theorem stepSku_completed (env : BatchEnv) (s : RunState) (c f : Nat) (sku : String) :
    (stepSku env s c f sku).2.1 = c + (if isSuccessSku env sku then 1 else 0) := by
  unfold stepSku isSuccessSku
  cases env.lookup sku with
  | exn => simp
  | notFound => simp
  | found =>
      cases h : env.hasImage sku with
      | false => simp [h]
      | true =>
          cases hu : env.upload sku with
          | ok => simp [h, hu]
          | exn => simp [h, hu]

theorem stepSku_failed (env : BatchEnv) (s : RunState) (c f : Nat) (sku : String) :
    (stepSku env s c f sku).2.2 = f + (if isSuccessSku env sku then 0 else 1) := by
  unfold stepSku isSuccessSku
  cases env.lookup sku with
  | exn => simp
  | notFound => simp
  | found =>
      cases h : env.hasImage sku with
      | false => simp [h]
      | true =>
          cases hu : env.upload sku with
          | ok => simp [h, hu]
          | exn => simp [h, hu]

theorem runLoop_ops (env : BatchEnv) (skus : List String) :
    ∀ (s : RunState) (c f : Nat),
      (runLoop env skus s c f).1.ops = s.ops ++ skus.flatMap (iterationOps env) := by
  induction skus with
  | nil => intro s c f; simp [runLoop]
  | cons sku rest ih =>
      intro s c f
      simp only [runLoop, List.flatMap_cons]
      rw [ih]
      simp [updateBatch, stepSku_ops]

theorem runLoop_completed (env : BatchEnv) (skus : List String) :
    ∀ (s : RunState) (c f : Nat),
      (runLoop env skus s c f).2.1 = c + successCount env skus := by
  induction skus with
  | nil => intro s c f; simp [runLoop, successCount]
  | cons sku rest ih =>
      intro s c f
      simp only [runLoop]
      rw [ih, stepSku_completed]
      simp only [successCount, List.filter_cons]
      cases h : isSuccessSku env sku <;> simp [h, successCount] <;> omega

theorem runLoop_failed (env : BatchEnv) (skus : List String) :
    ∀ (s : RunState) (c f : Nat),
      (runLoop env skus s c f).2.2 = f + failCount env skus := by
  induction skus with
  | nil => intro s c f; simp [runLoop, failCount]
  | cons sku rest ih =>
      intro s c f
      simp only [runLoop]
      rw [ih, stepSku_failed]
      simp only [failCount, List.filter_cons]
      cases h : isSuccessSku env sku <;> simp [h, failCount] <;> omega

theorem runLoop_totalItems (env : BatchEnv) (skus : List String) :
    ∀ (s : RunState) (c f : Nat),
      (runLoop env skus s c f).1.batch.totalItems = s.batch.totalItems := by
  induction skus with
  | nil => intro s c f; rfl
  | cons sku rest ih =>
      intro s c f
      simp only [runLoop]
      rw [ih]
      simp [updateBatch, stepSku_batch]

theorem success_add_fail (env : BatchEnv) (skus : List String) :
    successCount env skus + failCount env skus = skus.length := by
  induction skus with
  | nil => rfl
  | cons sku rest ih =>
      simp only [successCount, failCount, List.filter_cons] at *
      cases h : isSuccessSku env sku <;> simp [h] <;> omega

theorem runLoop_writes_inv (env : BatchEnv) (skus : List String) :
    ∀ (s : RunState) (c f : Nat),
      c + f + skus.length ≤ s.batch.totalItems →
      (∀ b ∈ s.writes, b.completedItems ≤ b.totalItems ∧ b.failedItems ≤ b.completedItems) →
      ∀ b ∈ (runLoop env skus s c f).1.writes,
        b.completedItems ≤ b.totalItems ∧ b.failedItems ≤ b.completedItems := by
  induction skus with
  | nil => intro s c f _ hw; simpa [runLoop] using hw
  | cons sku rest ih =>
      intro s c f hlen hw
      simp only [runLoop]
      apply ih
      · rw [stepSku_completed, stepSku_failed]
        simp only [updateBatch, stepSku_batch]
        simp only [List.length_cons] at hlen
        cases isSuccessSku env sku <;> simp <;> omega
      · intro b hb
        simp only [updateBatch, stepSku_writes, stepSku_batch, List.mem_append,
          List.mem_singleton] at hb
        rcases hb with hb | hb
        · exact hw b hb
        · subst hb
          rw [stepSku_completed, stepSku_failed]
          simp only [List.length_cons] at hlen
          constructor
          · cases isSuccessSku env sku <;> simp <;> omega
          · cases isSuccessSku env sku <;> simp <;> omega

theorem iterationOps_sku (env : BatchEnv) (sku : String) :
    ∀ op ∈ iterationOps env sku, op.sku = sku := by
  unfold iterationOps
  cases env.lookup sku with
  | exn => simp
  | notFound => simp
  | found =>
      cases h : env.hasImage sku with
      | false => simp [h]
      | true =>
          cases hu : env.upload sku with
          | ok => simp [h, hu]
          | exn => simp [h, hu]

theorem iterationOps_not_pending (env : BatchEnv) (sku : String) :
    ∀ op ∈ iterationOps env sku, op.status ≠ OpStatus.pending := by
  unfold iterationOps
  cases env.lookup sku with
  | exn => simp
  | notFound => simp
  | found =>
      cases h : env.hasImage sku with
      | false => simp [h]
      | true =>
          cases hu : env.upload sku with
          | ok => simp [h, hu]
          | exn => simp [h, hu]

theorem iterationOps_length (env : BatchEnv) (sku : String) :
    (iterationOps env sku).length
      = if env.lookup sku = LookupRes.found ∧ env.hasImage sku = true
           ∧ env.upload sku = UploadRes.exn then 2 else 1 := by
  unfold iterationOps
  cases hl : env.lookup sku with
  | exn => simp [hl]
  | notFound => simp [hl]
  | found =>
      cases h : env.hasImage sku with
      | false => simp [hl, h]
      | true =>
          cases hu : env.upload sku with
          | ok => simp [hl, h, hu]
          | exn => simp [hl, h, hu]

theorem flatMap_filter_sku (env : BatchEnv) (s0 : String) (l : List String) :
    ((l.flatMap (iterationOps env)).filter (fun op => op.sku == s0)).length
      = (l.filter (fun sku => sku == s0)).length * (iterationOps env s0).length := by
  induction l with
  | nil => simp
  | cons sku rest ih =>
      simp only [List.flatMap_cons, List.filter_append, List.length_append, ih,
        List.filter_cons]
      by_cases h : sku = s0
      · subst h
        have hall : (iterationOps env sku).filter (fun op => op.sku == sku)
            = iterationOps env sku := by
          rw [List.filter_eq_self]
          intro op hop
          simpa using iterationOps_sku env sku op hop
        rw [hall]
        simp only [beq_self_eq_true, if_true, List.length_cons]
        ring
      · have hnone : (iterationOps env sku).filter (fun op => op.sku == s0) = [] := by
          rw [List.filter_eq_nil_iff]
          intro op hop
          have hsku := iterationOps_sku env sku op hop
          simp [hsku, h]
        rw [hnone]
        simp [h]

theorem filter_self_length_of_nodup (s0 : String) (l : List String)
    (hnd : l.Nodup) (hmem : s0 ∈ l) :
    (l.filter (fun sku => sku == s0)).length = 1 := by
  induction l with
  | nil => simp at hmem
  | cons a rest ih =>
      rw [List.nodup_cons] at hnd
      simp only [List.filter_cons]
      rcases List.mem_cons.mp hmem with h | h
      · subst h
        simp only [beq_self_eq_true, if_true, List.length_cons]
        have hz : (rest.filter (fun sku => sku == s0)).length = 0 := by
          rw [List.length_eq_zero, List.filter_eq_nil_iff]
          intro b hb
          simp only [beq_iff_eq]
          intro hba
          subst hba
          exact hnd.1 hb
        omega
      · have hne : (a == s0) = false := by
          simp only [beq_eq_false_iff_ne, ne_eq]
          intro hae
          subst hae
          exact hnd.1 h
        simp only [hne, if_neg, Bool.false_eq_true, not_false_eq_true]
        exact ih hnd.2 h

theorem filter_self_length_pos (s0 : String) (l : List String) (hmem : s0 ∈ l) :
    0 < (l.filter (fun sku => sku == s0)).length := by
  have hm : s0 ∈ l.filter (fun sku => sku == s0) := by
    rw [List.mem_filter]
    exact ⟨hmem, by simp⟩
  exact List.length_pos.mpr (List.ne_nil_of_mem hm)

theorem processBatch_ops (env : BatchEnv) (skus : List String) (h : env.initOk = true) :
    (processBatchOperations env skus).ops = skus.flatMap (iterationOps env) := by
  simp only [processBatchOperations, h, if_true]
  simp [updateBatch, runLoop_ops]

theorem processBatch_batch (env : BatchEnv) (skus : List String) (h : env.initOk = true) :
    (processBatchOperations env skus).batch
      = { status := if 0 < successCount env skus then BatchStatus.completed
                    else BatchStatus.error,
          totalItems := skus.length,
          completedItems := successCount env skus + failCount env skus,
          failedItems := failCount env skus } := by
  simp only [processBatchOperations, h, if_true]
  simp [updateBatch, runLoop_completed, runLoop_failed, runLoop_totalItems, initialBatch,
    Nat.lt_iff_add_one_le]

/-! ## Helper lemmas about the ZIP routes -/

theorem find_guard (skus : List String) (p : String → Bool) :
    (if skus.length > 0 then skus.find? p else none) = skus.find? p := by
  cases skus <;> simp

theorem previewMatchedSkus_nil (skus : List String) :
    previewMatchedSkus skus [] = [] := by
  simp [previewMatchedSkus, zipPreviewFiles]

theorem previewMatchedSkus_cons (skus : List String) (e : ZipEntry) (rest : List ZipEntry) :
    previewMatchedSkus skus (e :: rest)
      = (if !e.isDir && isImageFilename e.filename then
           match skus.find? (fun sku => matchSkuToFilename sku (fileBaseNameOf e.filename)) with
           | some k => [k]
           | none => []
         else []) ++ previewMatchedSkus skus rest := by
  unfold previewMatchedSkus zipPreviewFiles
  by_cases hg : (!e.isDir && isImageFilename e.filename) = true
  · simp only [List.filterMap_cons, hg, if_true, find_guard]
    cases hf : skus.find? (fun sku => matchSkuToFilename sku (fileBaseNameOf e.filename)) with
    | none => simp [hf]
    | some k => simp [hf]
  · simp only [List.filterMap_cons, hg, if_false]
    simp [hg]

theorem zipExec_fold_isSome (skus : List String) (s : String) :
    ∀ (entries : List ZipEntry) (m : String → Option (List Nat)),
      ((entries.foldl
          (fun m e =>
            if !e.isDir && isImageFilename e.filename then
              match skus.find? (fun sku => matchSkuToFilename sku (fileBaseNameOf e.filename)) with
              | some matchingSku => fun s => if s == matchingSku then some e.content else m s
              | none => m
            else m) m) s).isSome = true
        ↔ (m s).isSome = true ∨ s ∈ previewMatchedSkus skus entries := by
  intro entries
  induction entries with
  | nil => intro m; simp [previewMatchedSkus_nil]
  | cons e rest ih =>
      intro m
      rw [List.foldl_cons, previewMatchedSkus_cons]
      by_cases hg : (!e.isDir && isImageFilename e.filename) = true
      · simp only [hg, if_true]
        cases hf : skus.find? (fun sku => matchSkuToFilename sku (fileBaseNameOf e.filename)) with
        | none => rw [ih]; simp
        | some k =>
            rw [ih]
            by_cases hsk : (s == k) = true
            · have : s = k := by simpa using hsk
              subst this
              simp [hsk]
            · simp only [hsk, if_neg, Bool.false_eq_true, not_false_eq_true,
                List.cons_append, List.nil_append, List.mem_cons]
              have : ¬ s = k := by simpa using hsk
              simp [hsk, this]
      · simp only [hg, if_false]
        rw [ih]
        simp [hg]

theorem successCount_eq_zero (env : BatchEnv) (skus : List String)
    (h : ∀ sku ∈ skus, env.lookup sku = LookupRes.notFound) :
    successCount env skus = 0 := by
  unfold successCount
  rw [List.length_eq_zero, List.filter_eq_nil_iff]
  intro sku hsku
  unfold isSuccessSku
  rw [h sku hsku]
  simp

/-! ## Claim theorems -/

/-- C1: in `processBatchOperations`, no single code's failure aborts the
loop — every submitted code ends with at least one ProductOperation
record, the final `completedItems` equals the number of submitted codes
(every code was attempted), the batch ends `Completed` exactly when at
least one code succeeded and `Error` exactly when zero codes succeeded;
in particular a batch where every code fails lookup ends with
`status = Error`, `failedItems = totalItems`, `completedItems = totalItems`. -/
theorem batch_loop_failure_semantics (env : BatchEnv) (skus : List String)
    (hinit : env.initOk = true) :
    (∀ sku ∈ skus,
        1 ≤ ((processBatchOperations env skus).ops.filter (fun op => op.sku == sku)).length) ∧
    (processBatchOperations env skus).batch.completedItems = skus.length ∧
    (processBatchOperations env skus).batch.totalItems = skus.length ∧
    ((processBatchOperations env skus).batch.status = BatchStatus.completed
        ↔ 0 < successCount env skus) ∧
    ((processBatchOperations env skus).batch.status = BatchStatus.error
        ↔ successCount env skus = 0) ∧
    ((∀ sku ∈ skus, env.lookup sku = LookupRes.notFound) →
        (processBatchOperations env skus).batch.status = BatchStatus.error ∧
        (processBatchOperations env skus).batch.failedItems
            = (processBatchOperations env skus).batch.totalItems ∧
        (processBatchOperations env skus).batch.completedItems
            = (processBatchOperations env skus).batch.totalItems) := by
  have hops := processBatch_ops env skus hinit
  have hbatch := processBatch_batch env skus hinit
  have hsum := success_add_fail env skus
  refine ⟨?_, ?_, ?_, ?_, ?_, ?_⟩
  · intro sku hsku
    rw [hops, flatMap_filter_sku]
    have h1 : 0 < (skus.filter (fun s => s == sku)).length :=
      filter_self_length_pos sku skus hsku
    have h2 : 0 < (iterationOps env sku).length := by
      rw [iterationOps_length]
      split <;> omega
    exact Nat.mul_pos h1 h2
  · simp only [hbatch]
    exact hsum
  · simp only [hbatch]
  · simp only [hbatch]
    by_cases hsc : 0 < successCount env skus
    · simp [hsc]
    · simp [hsc]
  · simp only [hbatch]
    by_cases hsc : 0 < successCount env skus
    · simp only [hsc, if_true]
      constructor
      · intro h; exact absurd h (by simp)
      · intro h; omega
    · have h0 : successCount env skus = 0 := by omega
      simp [hsc, h0]
  · intro hall
    have hsc := successCount_eq_zero env skus hall
    simp only [hbatch, hsc]
    refine ⟨by simp, by omega, by omega⟩

/-- A concrete environment where every lookup fails, used to witness the
failure semantics of the batch loop. -/
def allNotFoundEnv : BatchEnv :=
  { initOk := true, lookup := fun _ => LookupRes.notFound,
    hasImage := fun _ => false, upload := fun _ => UploadRes.exn }

/-- C1 witness: a concrete two-code batch in which every lookup fails —
every code still gets a record, and the batch ends
`Error` with `failedItems = completedItems = totalItems = 2`. -/
theorem batch_loop_failure_semantics_witness :
    (∀ sku ∈ (["A", "B"] : List String),
        1 ≤ ((processBatchOperations allNotFoundEnv ["A", "B"]).ops.filter
              (fun op => op.sku == sku)).length) ∧
    (processBatchOperations allNotFoundEnv ["A", "B"]).batch.completedItems
        = (["A", "B"] : List String).length ∧
    (processBatchOperations allNotFoundEnv ["A", "B"]).batch.totalItems
        = (["A", "B"] : List String).length ∧
    ((processBatchOperations allNotFoundEnv ["A", "B"]).batch.status = BatchStatus.completed
        ↔ 0 < successCount allNotFoundEnv ["A", "B"]) ∧
    ((processBatchOperations allNotFoundEnv ["A", "B"]).batch.status = BatchStatus.error
        ↔ successCount allNotFoundEnv ["A", "B"] = 0) ∧
    ((∀ sku ∈ (["A", "B"] : List String), allNotFoundEnv.lookup sku = LookupRes.notFound) →
        (processBatchOperations allNotFoundEnv ["A", "B"]).batch.status = BatchStatus.error ∧
        (processBatchOperations allNotFoundEnv ["A", "B"]).batch.failedItems
            = (processBatchOperations allNotFoundEnv ["A", "B"]).batch.totalItems ∧
        (processBatchOperations allNotFoundEnv ["A", "B"]).batch.completedItems
            = (processBatchOperations allNotFoundEnv ["A", "B"]).batch.totalItems) :=
  batch_loop_failure_semantics allNotFoundEnv ["A", "B"] rfl

/-- C2 (amended): while a batch is processed normally (the initial
`status='processing'` update succeeds), every write of the BatchOperation
record satisfies `completedItems ≤ totalItems` and
`failedItems ≤ completedItems`, with `completedItems` counting successes
plus failures.  (The pre-loop failure handler is the exception — see the
counterexample.) -/
theorem batch_counter_invariant (env : BatchEnv) (skus : List String)
    (hinit : env.initOk = true) :
    ∀ b ∈ (processBatchOperations env skus).writes,
      b.completedItems ≤ b.totalItems ∧ b.failedItems ≤ b.completedItems := by
  intro b hb
  simp only [processBatchOperations, hinit, if_true] at hb
  simp only [updateBatch, List.mem_append, List.mem_singleton] at hb
  rcases hb with hb | hb
  · refine runLoop_writes_inv env skus _ 0 0 ?_ ?_ b hb
    · simp [initialBatch]
    · intro b2 hb2
      simp only [List.nil_append, List.mem_singleton] at hb2
      subst hb2
      simp [initialBatch]
  · subst hb
    have hsum := success_add_fail env skus
    constructor
    · simp only [runLoop_completed, runLoop_failed, runLoop_totalItems]
      simp [initialBatch]
      omega
    · simp only [runLoop_completed, runLoop_failed]
      simp

/-- C2 witness: the invariant at the final write of a concrete batch of
two codes in which one upload succeeds and one code has no image. -/
theorem batch_counter_invariant_witness :
    ({ status := BatchStatus.completed, totalItems := 2,
       completedItems := 2, failedItems := 1 } : BatchRec).completedItems
        ≤ ({ status := BatchStatus.completed, totalItems := 2,
             completedItems := 2, failedItems := 1 } : BatchRec).totalItems ∧
    ({ status := BatchStatus.completed, totalItems := 2,
       completedItems := 2, failedItems := 1 } : BatchRec).failedItems
        ≤ ({ status := BatchStatus.completed, totalItems := 2,
             completedItems := 2, failedItems := 1 } : BatchRec).completedItems :=
  batch_counter_invariant
    { initOk := true, lookup := fun _ => LookupRes.found,
      hasImage := fun sku => sku == "A", upload := fun _ => UploadRes.ok }
    ["A", "B"] rfl
    { status := BatchStatus.completed, totalItems := 2,
      completedItems := 2, failedItems := 1 }
    (by decide)

/-- C2 counterexample: the write performed by the outer catch handler of
`processBatchOperations` (reached when the initial status update rejects)
sets `completedItems = 0` and `failedItems = totalItems`, violating
`failedItems ≤ completedItems` for a nonempty batch. -/
theorem batch_counter_catch_write_violation :
    ∃ b ∈ (processBatchOperations
        { initOk := false, lookup := fun _ => LookupRes.found,
          hasImage := fun _ => true, upload := fun _ => UploadRes.ok }
        ["A"]).writes,
      ¬ b.failedItems ≤ b.completedItems := by
  decide

/-- C3: for every code list and archive entry list, a code receives an
image buffer in the batch-execution ZIP branch exactly when the ZIP
preview classifies it as matched — both passes derive the basename the
same way and call the same `matchSkuToFilename`. -/
theorem zip_preview_execution_agree (skus : List String) (entries : List ZipEntry)
    (s : String) :
    ((zipExecImageFiles skus entries s).isSome = true)
      ↔ s ∈ previewMatchedSkus skus entries := by
  have h := zipExec_fold_isSome skus s entries (fun _ => none)
  simpa [zipExecImageFiles] using h

/-- C4 (amended): `matchSkuToFilename` on code `FL-001-XL` accepts the
basenames of `FL-001-XL.jpg`, `fl-001-xl.png`, `FL_001_XL.webp` and
`photo-FL-001-XL-2.jpg`, rejects the basename of `FL-002-XL.jpg`, but
ALSO accepts the basename of `FL-001-XLARGE.jpg` through the
starts-with rule. -/
theorem matcher_examples :
    matchSkuToFilename "FL-001-XL" (fileBaseNameOf "FL-001-XL.jpg") = true ∧
    matchSkuToFilename "FL-001-XL" (fileBaseNameOf "fl-001-xl.png") = true ∧
    matchSkuToFilename "FL-001-XL" (fileBaseNameOf "FL_001_XL.webp") = true ∧
    matchSkuToFilename "FL-001-XL" (fileBaseNameOf "photo-FL-001-XL-2.jpg") = true ∧
    matchSkuToFilename "FL-001-XL" (fileBaseNameOf "FL-002-XL.jpg") = false ∧
    matchSkuToFilename "FL-001-XL" (fileBaseNameOf "FL-001-XLARGE.jpg") = true :=
  ⟨rfl, rfl, rfl, rfl, rfl, rfl⟩

/-- C4 counterexample: contrary to the claim, code `FL-001-XL` does match
the basename of `FL-001-XLARGE.jpg` (the starts-with rule fires because
`fl-001-xlarge` begins with `fl-001-xl`). -/
theorem matcher_xlarge_matches :
    matchSkuToFilename "FL-001-XL" (fileBaseNameOf "FL-001-XLARGE.jpg") = true := by
  rfl

/-- C5 (amended): the batch-operation route performs no validation of the
code-list length — for every active store and every code list, whatever
its length, it creates a BatchOperation record with
`totalItems = skus.length`. -/
theorem batch_route_no_cap (store : StoreConfig) (skus : List String) :
    batchOperationRoute (some store) skus = Except.ok (initialBatch skus) ∧
    (initialBatch skus).totalItems = skus.length :=
  ⟨rfl, rfl⟩

/-- C5 counterexample: a submission of 31 distinct codes is not rejected —
a BatchOperation record with `totalItems = 31` is created. -/
theorem batch_route_creates_31 :
    batchOperationRoute (some { id := "store-1", storeUrl := "example.myshopify.com" })
        ((List.range 31).map (fun n => toString n))
      = Except.ok { status := BatchStatus.pending, totalItems := 31,
                    completedItems := 0, failedItems := 0 } := by
  rfl

/-- C6 (amended): in a batch of distinct codes, a code whose lookup fails,
whose image is missing, or whose upload succeeds ends with exactly one
ProductOperation record; but a code whose upload sequence throws after the
pending record was created ends with exactly TWO records (the pending
record updated to Error, plus the record the outer catch creates).  No
record is left in the Pending state. -/
theorem product_operation_record_count (env : BatchEnv) (skus : List String) (s0 : String)
    (hinit : env.initOk = true) (hnd : skus.Nodup) (hmem : s0 ∈ skus) :
    (((processBatchOperations env skus).ops.filter (fun op => op.sku == s0)).length
        = if env.lookup s0 = LookupRes.found ∧ env.hasImage s0 = true
             ∧ env.upload s0 = UploadRes.exn then 2 else 1) ∧
    (∀ op ∈ (processBatchOperations env skus).ops, op.status ≠ OpStatus.pending) := by
  constructor
  · rw [processBatch_ops env skus hinit, flatMap_filter_sku,
      filter_self_length_of_nodup s0 skus hnd hmem, one_mul, iterationOps_length]
  · intro op hop
    rw [processBatch_ops env skus hinit] at hop
    rcases List.mem_flatMap.mp hop with ⟨sku, hsku, hopin⟩
    exact iterationOps_not_pending env sku op hopin

/-- C6 witness: a concrete one-code batch whose upload fails yields two
records; with a successful upload it yields one. -/
theorem product_operation_record_count_witness :
    (((processBatchOperations
        { initOk := true, lookup := fun _ => LookupRes.found,
          hasImage := fun _ => true, upload := fun _ => UploadRes.exn }
        ["A"]).ops.filter (fun op => op.sku == "A")).length
        = if ({ initOk := true, lookup := fun _ => LookupRes.found,
                hasImage := fun _ => true, upload := fun _ => UploadRes.exn }
              : BatchEnv).lookup "A" = LookupRes.found
             ∧ ({ initOk := true, lookup := fun _ => LookupRes.found,
                  hasImage := fun _ => true, upload := fun _ => UploadRes.exn }
                : BatchEnv).hasImage "A" = true
             ∧ ({ initOk := true, lookup := fun _ => LookupRes.found,
                  hasImage := fun _ => true, upload := fun _ => UploadRes.exn }
                : BatchEnv).upload "A" = UploadRes.exn then 2 else 1) ∧
    (∀ op ∈ (processBatchOperations
        { initOk := true, lookup := fun _ => LookupRes.found,
          hasImage := fun _ => true, upload := fun _ => UploadRes.exn }
        ["A"]).ops, op.status ≠ OpStatus.pending) :=
  product_operation_record_count
    { initOk := true, lookup := fun _ => LookupRes.found,
      hasImage := fun _ => true, upload := fun _ => UploadRes.exn }
    ["A"] "A" rfl (by decide) (by decide)

/-- C6 counterexample: contrary to the claim, when the upload step fails
after the Pending record was created, TWO ProductOperation records exist
for that (code, batch) pair. -/
theorem duplicate_record_on_upload_failure :
    ((processBatchOperations
        { initOk := true, lookup := fun _ => LookupRes.found,
          hasImage := fun _ => true, upload := fun _ => UploadRes.exn }
        ["A"]).ops.filter (fun op => op.sku == "A")).length = 2 := by
  rfl

/-- C7: `replaceVariantImage` issues the deletion of the prior asset first
and then the creation of the new asset, for every outcome of the deletion
call (a thrown deletion error is caught and never prevents the creation);
`addImageToProduct` issues only the creation call and never a deletion. -/
theorem replace_delete_then_create_add_never_deletes
    (env : ShopifyEnv) (variantId productId url alt id : String)
    (hid1 : id ≠ "") (hid2 : id ≠ "null") :
    (replaceVariantImage env variantId productId url alt (some id)).1
        = [RemoteCall.deleteMedia productId id,
           RemoteCall.createMedia productId url alt] ∧
    (addImageToProduct env productId url alt).1
        = [RemoteCall.createMedia productId url alt] := by
  constructor
  · unfold replaceVariantImage validImageId
    have h1 : (id == "") = false := by simpa using hid1
    have h2 : (id == "null") = false := by simpa using hid2
    cases env.createRes <;> simp [h1, h2]
  · unfold addImageToProduct
    cases env.createRes <;> rfl

/-- C7 witness: concrete replace and add runs under an environment whose
deletion call throws — the creation call still follows the deletion
attempt. -/
theorem replace_delete_then_create_witness :
    (replaceVariantImage
        { deleteRes := CallRes.exn, deleteReturns := false, createRes := CallRes.ok }
        "gid-variant-1" "gid-product-1" "https://img.example/x.jpg" "alt text"
        (some "gid-media-1")).1
        = [RemoteCall.deleteMedia "gid-product-1" "gid-media-1",
           RemoteCall.createMedia "gid-product-1" "https://img.example/x.jpg" "alt text"] ∧
    (addImageToProduct
        { deleteRes := CallRes.exn, deleteReturns := false, createRes := CallRes.ok }
        "gid-product-1" "https://img.example/x.jpg" "alt text").1
        = [RemoteCall.createMedia "gid-product-1" "https://img.example/x.jpg" "alt text"] :=
  replace_delete_then_create_add_never_deletes
    { deleteRes := CallRes.exn, deleteReturns := false, createRes := CallRes.ok }
    "gid-variant-1" "gid-product-1" "https://img.example/x.jpg" "alt text"
    "gid-media-1" (by decide) (by decide)

/-- C8: evaluating `matchSkuToFilename` at the claim's whitespace-delimited
example returns `false` — the word-boundary rule does not treat whitespace
as a delimiter (in the template literal building the regex, `\s` collapses
to the letter `s`), although the hyphen-delimited analogue matches. -/
theorem whitespace_delimiter_not_matched :
    matchSkuToFilename "FL-001-XL" "photo FL-001-XL front" = false ∧
    matchSkuToFilename "FL-001-XL" "photo-FL-001-XL-front" = true :=
  ⟨rfl, rfl⟩

/-- C9: when the format conversion throws, `createProductMediaFromBuffer`
passes the original bytes through unchanged to the upload steps while
still reporting the mime type of the originally requested target
format. -/
theorem transcode_fallback_original_bytes (env : ConvertEnv) (imageBuffer : List Nat)
    (fileExtension : String) (h : env.convert fileExtension imageBuffer = none) :
    prepareUploadBuffer env imageBuffer fileExtension
      = (imageBuffer, targetMimeType fileExtension) := by
  unfold prepareUploadBuffer
  rw [h]
  rfl

/-- C9 witness: a concrete buffer under an always-failing converter. -/
theorem transcode_fallback_original_bytes_witness :
    prepareUploadBuffer { convert := fun _ _ => none } [7, 7, 7] "webp"
      = ([7, 7, 7], targetMimeType "webp") :=
  transcode_fallback_original_bytes { convert := fun _ _ => none } [7, 7, 7] "webp" rfl

/-- C10: when the found variant has no image of its own and its parent
product has at least one image, `searchProductBySku` returns the variant
with the product's first image substituted in, and the existing-image id
the batch Replace path passes to deletion is that first image's id. -/
theorem variant_image_fallback_to_product_image
    (v : ProductVariant) (img : ShopImage) (rest : List ShopImage)
    (himg : v.image = none) (hprod : v.product.images = img :: rest) :
    searchProductBySku [v] = some { v with image := some img } ∧
    existingImageIdFor { v with image := some img } = some img.id := by
  constructor
  · simp [searchProductBySku, himg, hprod]
  · unfold existingImageIdFor
    by_cases hid : (img.id == "") = true
    · have hemp : img.id = "" := by simpa using hid
      simp [hid, hprod, hemp]
    · simp [hid]

/-- C10 witness: a concrete variant without its own image over a product
with one image. -/
theorem variant_image_fallback_witness :
    searchProductBySku
        [{ id := "gid-variant-1", sku := "A", image := none,
           product := { id := "gid-product-1", title := "T", handle := "t",
                        images := [{ id := "gid-image-1", url := "https://img" }] } }]
      = some { id := "gid-variant-1", sku := "A",
               image := some { id := "gid-image-1", url := "https://img" },
               product := { id := "gid-product-1", title := "T", handle := "t",
                            images := [{ id := "gid-image-1", url := "https://img" }] } } ∧
    existingImageIdFor
        { id := "gid-variant-1", sku := "A",
          image := some { id := "gid-image-1", url := "https://img" },
          product := { id := "gid-product-1", title := "T", handle := "t",
                       images := [{ id := "gid-image-1", url := "https://img" }] } }
      = some "gid-image-1" :=
  variant_image_fallback_to_product_image
    { id := "gid-variant-1", sku := "A", image := none,
      product := { id := "gid-product-1", title := "T", handle := "t",
                   images := [{ id := "gid-image-1", url := "https://img" }] } }
    { id := "gid-image-1", url := "https://img" } [] rfl rfl

end Spec2Proof
